import Mathlib

/-!
Verification of the cursor-openrouter-proxy request/response translation engine.

The definitions below are a shallow embedding of `proxy.go`: every pure piece
of translation logic (model rewriting, message/tool conversion, the numeric
parameter policy, the non-streaming response rewriter, the streaming relay's
line loop, the buffer pools, header construction, and route dispatch) is
translated into an executable Lean function; the surrounding I/O (the HTTP
transport itself) is abstracted by explicit parameters carrying what the code
would read from the wire.  Line numbers in doc comments refer to `proxy.go`.
-/

namespace CursorProxy

/-- proxy.go 23-27: compile-time constants for the endpoint, the default
upstream model and the single inbound model name the proxy advertises. -/
def openRouterEndpoint : String := "https://openrouter.ai/api/v1"

/-- proxy.go 25: default upstream model. -/
def openRouterModel : String := "openai/gpt-4o"

/-- proxy.go 26: the mocked inbound model identifier. -/
def cursorMockedModel : String := "gpt-4o"

/-- proxy.go 34-38: runtime configuration record (endpoint, model, apiKey). -/
structure Config where
  endpoint : String
  model : String
  apiKey : String
deriving DecidableEq

/-- strings.HasPrefix, used for the provider-family dispatch in proxy.go
(lines 437, 445, 523, 525) and for path routing (line 376): true when the
second argument is a leading substring of the first. -/
def startsWithStr (s pre : String) : Bool :=
  List.isPrefixOf pre.data s.data

/-- proxy.go 183-186: the function part of a tool call (name + raw
argument string). -/
structure ToolCallFunction where
  name : String
  arguments : String
deriving DecidableEq

/-- proxy.go 180-187: a tool call record. -/
structure ToolCall where
  id : String
  type : String
  function : ToolCallFunction
deriving DecidableEq

/-- proxy.go 161-167: a chat message. -/
structure Message where
  role : String
  content : String
  toolCalls : List ToolCall
  toolCallID : String
  name : String
deriving DecidableEq

/-- proxy.go 169-173: a function declaration.  The `parameters` field is an
arbitrary JSON payload (`any` in the source) that the rewriter only carries
around; it is modelled as an opaque string. -/
structure Function where
  name : String
  description : String
  parameters : String
deriving DecidableEq

/-- proxy.go 175-178: a tool (type tag + function declaration). -/
structure Tool where
  type : String
  function : Function
deriving DecidableEq

/-- proxy.go 156: the `tool_choice` field is `interface{}` in the source; the
values `convertToolChoice` distinguishes are: JSON null / absent, a string, a
JSON object (only its "type" entry is inspected), and anything else. -/
inductive ToolChoiceValue where
  | null
  | str (s : String)
  | obj (typeEntry : String)
  | other
deriving DecidableEq

/-- proxy.go 150-159: the inbound OpenAI-style chat request.  `temperature`
and `maxTokens` are pointers in the source (`nil` = absent), modelled as
`Option`; temperature is a float64 used only for comparison and assignment,
modelled as a rational. -/
structure ChatRequest where
  model : String
  messages : List Message
  stream : Bool
  functions : List Function
  tools : List Tool
  toolChoice : ToolChoiceValue
  temperature : Option ℚ
  maxTokens : Option Int
deriving DecidableEq

/-- proxy.go 261-269: the upstream OpenRouter request.  `Temperature` and
`MaxTokens` are plain (non-pointer) fields whose zero value is omitted from
the serialized JSON by the `omitempty` tag; the struct keeps the zero value
itself. -/
structure OpenRouterRequest where
  model : String
  messages : List Message
  stream : Bool
  temperature : ℚ
  maxTokens : Int
  tools : List Tool
  toolChoice : String
deriving DecidableEq

/-- encoding/json `omitempty` on proxy.go 265: the temperature field appears
in the serialized body only when the struct value is non-zero. -/
def serializedTemperature (r : OpenRouterRequest) : Option ℚ :=
  if r.temperature = 0 then none else some r.temperature

/-- encoding/json `omitempty` on proxy.go 266: the max_tokens field appears
in the serialized body only when the struct value is non-zero. -/
def serializedMaxTokens (r : OpenRouterRequest) : Option Int :=
  if r.maxTokens = 0 then none else some r.maxTokens

/-- proxy.go 189-210: normalization of the inbound tool_choice directive. -/
def convertToolChoice (choice : ToolChoiceValue) : String :=
  match choice with
  | ToolChoiceValue.null => ""
  | ToolChoiceValue.str s => if s = "auto" ∨ s = "none" then s else ""
  | ToolChoiceValue.obj typeEntry => if typeEntry = "function" then "auto" else ""
  | ToolChoiceValue.other => ""

/-- proxy.go 212-251, body of the per-message loop: an assistant message
carrying tool calls has each tool call rebuilt with type "function" (id and
function preserved); a legacy "function"-role message has its role rewritten
to "tool"; everything else is copied unchanged. -/
def convertMessage (msg : Message) : Message :=
  let m1 :=
    if msg.role = "assistant" ∧ msg.toolCalls ≠ [] then
      { msg with toolCalls :=
          msg.toolCalls.map (fun tc => { tc with type := "function" }) }
    else msg
  if msg.role = "function" then { m1 with role := "tool" } else m1

/-- proxy.go 212-251: the message translator maps the loop body over the
input list, building an output list of the same length in the same order. -/
def convertMessages (messages : List Message) : List Message :=
  messages.map convertMessage

/-- proxy.go 438-443 and 446-451: temperature ceiling of 1.0
(`if temp > 1.0 then temp = 1.0`). -/
def clampTemp (t : ℚ) : ℚ := if 1 < t then 1 else t

/-- proxy.go 435-463: the model-specific numeric parameter policy, switching
on a prefix of the resolved configuration model.  Returns the (temperature,
maxTokens) pair stored in the upstream struct; absent inbound values leave
the zero value in place, exactly as the source's conditional assignments do.
- prefix "mistralai/": temperature clamped when present, max_tokens never
  assigned;
- prefix "google/": temperature clamped when present, max_tokens copied when
  present;
- otherwise: both copied unclamped when present. -/
def applyParamPolicy (model : String) (temperature : Option ℚ)
    (maxTokens : Option Int) : ℚ × Int :=
  if startsWithStr model "mistralai/" then
    (match temperature with | some t => clampTemp t | none => 0, 0)
  else if startsWithStr model "google/" then
    (match temperature with | some t => clampTemp t | none => 0,
     match maxTokens with | some m => m | none => 0)
  else
    (match temperature with | some t => t | none => 0,
     match maxTokens with | some m => m | none => 0)

/-- proxy.go 465-483: tools/functions handling.  Structured tools are
forwarded as-is; otherwise legacy functions are each wrapped as a
type-"function" tool; the resolved tool choice accompanies either (the
source assigns it only when non-empty, which coincides with leaving the
zero value "" in place). -/
def applyTools (tools : List Tool) (functions : List Function)
    (choice : ToolChoiceValue) : List Tool × String :=
  if tools ≠ [] then
    (tools, convertToolChoice choice)
  else if functions ≠ [] then
    (functions.map (fun fn => { type := "function", function := fn }),
     convertToolChoice choice)
  else
    ([], "")

/-- Outcome of the model check and request rewrite in proxyHandler.
`forward req` means the handler proceeds to send `req` upstream (the only
path that reaches `httpClient.Do`, proxy.go 541); `clientError status msg`
means `http.Error` is written and the handler returns at once, so no
upstream call is made (proxy.go 424-425). -/
inductive RewriteOutcome where
  | clientError (status : ℕ) (message : String)
  | forward (req : OpenRouterRequest)
deriving DecidableEq

/-- proxy.go 417-483: the request rewriter.  A request whose model is the
mocked identifier has its model replaced by the configured model and is
rebuilt as an OpenRouterRequest (translated messages, same stream flag,
provider-policy numeric parameters, converted tools); any other model is
answered with HTTP 400 and never forwarded. -/
def rewriteRequest (cfg : Config) (chatReq : ChatRequest) : RewriteOutcome :=
  if chatReq.model = cursorMockedModel then
    let p := applyParamPolicy cfg.model chatReq.temperature chatReq.maxTokens
    let tp := applyTools chatReq.tools chatReq.functions chatReq.toolChoice
    RewriteOutcome.forward
      { model := cfg.model
        messages := convertMessages chatReq.messages
        stream := chatReq.stream
        temperature := p.1
        maxTokens := p.2
        tools := tp.1
        toolChoice := tp.2 }
  else
    RewriteOutcome.clientError 400
      ("Model " ++ chatReq.model ++ " not supported. Use " ++
        cursorMockedModel ++ " instead.")

/-- proxy.go 707-711 / 744-748: token usage counters. -/
structure Usage where
  promptTokens : Int
  completionTokens : Int
  totalTokens : Int
deriving DecidableEq

/-- proxy.go 702-706 / 739-743: one choice of a completion response. -/
structure Choice where
  index : Int
  message : Message
  finishReason : String
deriving DecidableEq

/-- proxy.go 712-716: the optional structured error of an upstream body. -/
structure ErrorInfo where
  message : String
  type : String
  code : Int
deriving DecidableEq

/-- proxy.go 697-717: the parsed non-streaming upstream response. -/
structure OpenRouterResponse where
  id : String
  object : String
  created : Int
  model : String
  choices : List Choice
  usage : Usage
  error : Option ErrorInfo
deriving DecidableEq

/-- proxy.go 734-755: the client-facing OpenAI-format response. -/
structure OpenAIResponse where
  id : String
  object : String
  created : Int
  model : String
  choices : List Choice
  usage : Usage
deriving DecidableEq

/-- Outcome of handleRegularResponse: either `http.Error` with the upstream
error's message and code (proxy.go 727-731), or the rewritten body. -/
inductive RegularResult where
  | httpError (message : String) (code : Int)
  | ok (resp : OpenAIResponse)
deriving DecidableEq

/-- proxy.go 763-785, body of the per-choice loop: index, message and
finish_reason are copied from the upstream choice; when the message carries
tool calls, each tool call with a non-empty function name is appended to the
copied message's tool-call slice (which, having been copied from the
upstream message, already holds the original tool calls — the appends extend
it rather than replace it). -/
def convertChoice (choice : Choice) : Choice :=
  if choice.message.toolCalls ≠ [] then
    { choice with message :=
        { choice.message with toolCalls :=
            choice.message.toolCalls ++
              (choice.message.toolCalls.filter
                (fun tc => tc.function.name ≠ "")) } }
  else choice

/-- proxy.go 726-785: the non-streaming response rewriter.  An upstream body
with a structured error is surfaced via `http.Error` with the upstream
message and code; otherwise the client response keeps id/created/usage,
forces object to "chat.completion" and model to the mocked identifier, and
maps the per-choice conversion over the upstream choices. -/
def handleRegularResponse (resp : OpenRouterResponse) : RegularResult :=
  match resp.error with
  | some e => RegularResult.httpError e.message e.code
  | none =>
    RegularResult.ok
      { id := resp.id
        object := "chat.completion"
        created := resp.created
        model := cursorMockedModel
        choices := resp.choices.map convertChoice
        usage := resp.usage }

/-- Function-name lists of the tool calls of each choice of an `ok` result;
used to observe the response rewriter's tool-call handling. -/
def regularToolCallNames (r : RegularResult) : List (List String) :=
  match r with
  | RegularResult.httpError _ _ => []
  | RegularResult.ok resp =>
      resp.choices.map (fun c => c.message.toolCalls.map
        (fun tc => tc.function.name))

/-- Dispatch targets of proxyHandler (proxy.go 347-380). -/
inductive Route where
  | corsOnly
  | getConfig
  | getModels
  | postConfig
  | notFound
  | chatPipeline
deriving DecidableEq

/-- proxy.go 347-380: path/method dispatch performed by proxyHandler.
OPTIONS short-circuits with CORS headers only; /v1/config and /v1/models
have dedicated handlers; any path outside /v1/ is answered 404 "Not found";
everything else continues into the chat-completion pipeline. -/
def proxyRoute (method path : String) : Route :=
  if method = "OPTIONS" then Route.corsOnly
  else if path = "/v1/config" ∧ method = "GET" then Route.getConfig
  else if path = "/v1/models" ∧ method = "GET" then Route.getModels
  else if path = "/v1/config" ∧ method = "POST" then Route.postConfig
  else if startsWithStr path "/v1/" = false then Route.notFound
  else Route.chatPipeline

/-- proxy.go 318-321: the http.Server is constructed with
`Handler: http.HandlerFunc(proxyHandler)`, so every inbound request —
including GET /health — is dispatched by proxyRoute.  The health-check
closure registered with `http.HandleFunc("/health", ...)` (proxy.go 281)
lives on the default mux, which a server with a non-nil Handler never
consults; it is therefore unreachable at runtime. -/
def serverRoute (method path : String) : Route :=
  proxyRoute method path

/-- Outcome of the upstream probe the health-check closure performs. -/
inductive ProbeResult where
  | connFailure
  | httpStatus (code : ℕ) (body : String)
deriving DecidableEq

/-- proxy.go 281-316: the (unreachable) health-check closure itself: probe
upstream /models; connection failure yields 503 "Connection failed"; a
non-200 upstream status is echoed as the response status; 200 yields a JSON
body with status "ok" and the endpoint. -/
def healthHandler (probe : ProbeResult) : ℕ × String :=
  match probe with
  | ProbeResult.connFailure => (503, "Connection failed")
  | ProbeResult.httpStatus code _ =>
    if code = 200 then
      (200, "\x7b\"status\":\"ok\",\"endpoint\":\"" ++ openRouterEndpoint ++ "\"\x7d")
    else (code, "OpenRouter returned " ++ toString code)

/-- unicode.IsSpace over the byte/rune set relevant to bytes.TrimSpace
(proxy.go 660): ASCII whitespace plus NEL and NBSP. -/
def isSpaceChar (c : Char) : Bool :=
  c = ' ' || c = '\t' || c = '\n' || c = '\x0b' || c = '\x0c' || c = '\r' ||
    c = '\u0085' || c = '\u00A0'

/-- proxy.go 660: `len(bytes.TrimSpace(line)) == 0` — a line is blank exactly
when every character is whitespace. -/
def isBlankLine (line : String) : Bool :=
  line.data.all isSpaceChar

/-- Observable client-side actions of the streaming relay's read loop: a
write of one line (delimiter included, as bufio ReadBytes returns it) or a
flush of the response writer. -/
inductive StreamAction where
  | writeLine (line : String)
  | flush
deriving DecidableEq

/-- proxy.go 643-678: the relay's read loop over the upstream body, given as
the list of delimiter-terminated lines ReadBytes yields.  A blank line is
skipped; any other line is written to the client verbatim and immediately
followed by a flush. -/
def relayLines (lines : List String) : List StreamAction :=
  match lines with
  | [] => []
  | l :: rest =>
    if isBlankLine l then relayLines rest
    else StreamAction.writeLine l :: StreamAction.flush :: relayLines rest

/-- proxy.go 622-641: the heartbeat goroutine writes one comment line per
tick of a 15-second ticker, so after `elapsedSeconds` seconds of wall-clock
time exactly `elapsedSeconds / 15` heartbeats have been emitted. -/
def heartbeatCount (elapsedSeconds : ℕ) : ℕ :=
  elapsedSeconds / 15

/-- Case-sensitive lookup of the first header with the given key (net/http
Header.Set stores each key once, so first match is the value). -/
def lookupHeader (headers : List (String × String)) (key : String) :
    Option String :=
  (headers.find? (fun p => p.1 = key)).map Prod.snd

/-- proxy.go 512-539: headers of the chat-completion forward to upstream.
Header.Set replaces any previous value for a key, so the Accept header set
to application/json on line 515 ends as text/event-stream when the request
streams (line 538); the X-Forwarded-*/X-Real-Ip deletions are no-ops on a
freshly constructed request and add no entries. -/
def chatForwardHeaders (cfg : Config) (stream : Bool) :
    List (String × String) :=
  [("Authorization", "Bearer " ++ cfg.apiKey),
   ("Content-Type", "application/json"),
   ("Accept", if stream then "text/event-stream" else "application/json"),
   ("User-Agent", "cursor-proxy/1.0"),
   ("HTTP-Referer", "https://github.com/pezzos/cursor-proxy"),
   ("X-Title", "Cursor Proxy"),
   ("OpenAI-Organization", "cursor-proxy")] ++
  (if startsWithStr cfg.model "mistralai/" then
    [("X-Model-Provider", "mistral")]
   else if startsWithStr cfg.model "google/" then
    [("X-Model-Provider", "google")]
   else [])

/-- proxy.go 290-294: headers of the health-check probe of upstream /models
(no Accept and no User-Agent header is ever set on this request). -/
def healthProbeHeaders (cfg : Config) : List (String × String) :=
  [("Authorization", "Bearer " ++ cfg.apiKey),
   ("Content-Type", "application/json"),
   ("HTTP-Referer", "https://github.com/pezzos/cursor-proxy"),
   ("X-Title", "Cursor Proxy"),
   ("OpenAI-Organization", "cursor-proxy")]

/-- proxy.go 919-928: headers of the /v1/models listing proxy request to
upstream — only a Content-Type header is set; in particular no
Authorization header. -/
def modelsProxyHeaders : List (String × String) :=
  [("Content-Type", "application/json")]

/-- A pooled bytes.Buffer, identified so that aliasing of its backing store
can be tracked: `bufId` names the buffer object, `cap` its capacity, `data`
its current contents. -/
structure PoolBuffer where
  bufId : ℕ
  cap : ℕ
  data : List ℕ
deriving DecidableEq

/-- The two sync.Pool instances of proxy.go 55-67 plus a counter for fresh
buffer identities (the pools' New functions allocate a fresh buffer when the
pool is empty). -/
structure PoolState where
  smallPool : List PoolBuffer
  largePool : List PoolBuffer
  nextId : ℕ
deriving DecidableEq

/-- proxy.go 73-82: getBuffer draws from the small pool when the requested
size is below 1024 and from the large pool otherwise (allocating a fresh
buffer when that pool is empty), and resets the buffer — zero length,
retained capacity — before handing it out. -/
def getBuffer (size : Int) (st : PoolState) : PoolBuffer × PoolState :=
  if size < 1024 then
    match st.smallPool with
    | b :: rest => ({ b with data := [] }, { st with smallPool := rest })
    | [] =>
      ({ bufId := st.nextId, cap := 0, data := [] },
       { st with nextId := st.nextId + 1 })
  else
    match st.largePool with
    | b :: rest => ({ b with data := [] }, { st with largePool := rest })
    | [] =>
      ({ bufId := st.nextId, cap := 0, data := [] },
       { st with nextId := st.nextId + 1 })

/-- proxy.go 84-90: putBuffer returns a buffer to the small pool when its
capacity is below 1024 and to the large pool otherwise. -/
def putBuffer (buf : PoolBuffer) (st : PoolState) : PoolState :=
  if buf.cap < 1024 then { st with smallPool := buf :: st.smallPool }
  else { st with largePool := buf :: st.largePool }

/-- proxy.go 844-875: readResponse, with decompression abstracted — `body`
is the byte sequence io.Copy drains from the (possibly decompressing)
reader, and `contentLength` is resp.ContentLength, the size passed to
getBuffer.  The function copies the body into a pooled buffer (growing its
capacity as needed), returns `buf.Bytes()` — modelled as the pair of the
buffer's identity and its contents, since the slice aliases the buffer's
backing array — and, through the deferred putBuffer, returns the buffer to
the pool before the caller ever looks at the bytes. -/
def readResponse (contentLength : Int) (body : List ℕ) (st : PoolState) :
    (ℕ × List ℕ) × PoolState :=
  match getBuffer contentLength st with
  | (buf, st1) =>
    let filled : PoolBuffer :=
      { buf with data := body, cap := max buf.cap body.length }
    ((filled.bufId, filled.data), putBuffer filled st1)

/-- Concrete configuration used by witnesses: the default endpoint and
model with a well-formed key. -/
def cfgDefault : Config :=
  { endpoint := openRouterEndpoint, model := openRouterModel,
    apiKey := "sk-or-v1-0123456789abcdef0123456789abcdef" }

/-- Configuration resolved to a google-family model. -/
def cfgGoogle : Config :=
  { cfgDefault with model := "google/gemini-pro" }

/-- A minimal valid inbound chat request carrying the mocked model id. -/
def baseRequest : ChatRequest :=
  { model := cursorMockedModel, messages := [], stream := false,
    functions := [], tools := [], toolChoice := ToolChoiceValue.null,
    temperature := none, maxTokens := none }

/-- The spec's own provider-policy example: temperature 1.7 and a
max-token count of 2048. -/
def reqSpicy : ChatRequest :=
  { baseRequest with temperature := some (17 / 10), maxTokens := some 2048 }

/-- A request whose optional numeric fields are explicitly present with
value zero. -/
def reqZero : ChatRequest :=
  { baseRequest with temperature := some 0, maxTokens := some 0 }

/-- The upstream request reqSpicy rewrites to under cfgGoogle. -/
def rSpicy : OpenRouterRequest :=
  { model := "google/gemini-pro", messages := [], stream := false,
    temperature := 1, maxTokens := 2048, tools := [], toolChoice := "" }

/-- A tool call with an empty function name (a malformed upstream stub). -/
def tcEmpty : ToolCall :=
  { id := "call_0", type := "function",
    function := { name := "", arguments := "" } }

/-- A well-formed tool call. -/
def tcNamed : ToolCall :=
  { id := "call_1", type := "function",
    function := { name := "get_weather", arguments := "" } }

/-- A parsed upstream response with one choice whose message carries the
malformed tool call followed by the well-formed one. -/
def c2Upstream : OpenRouterResponse :=
  { id := "gen-1", object := "chat.completion", created := 1700000000,
    model := "openai/gpt-4o",
    choices :=
      [{ index := 0,
         message := { role := "assistant", content := "",
                      toolCalls := [tcEmpty, tcNamed],
                      toolCallID := "", name := "" },
         finishReason := "tool_calls" }],
    usage := { promptTokens := 10, completionTokens := 5, totalTokens := 15 },
    error := none }

/-- An assistant message whose tool call carries an upstream-specific type
tag that the translator must normalize. -/
def wAssistantMsg : Message :=
  { role := "assistant", content := "",
    toolCalls :=
      [{ id := "call_7", type := "tool_call",
         function := { name := "write_file", arguments := "" } }],
    toolCallID := "", name := "" }

/-- A legacy function-role response message. -/
def wFunctionMsg : Message :=
  { role := "function", content := "ok", toolCalls := [],
    toolCallID := "call_7", name := "write_file" }

/-- An ordinary user message. -/
def wUserMsg : Message :=
  { role := "user", content := "hi", toolCalls := [], toolCallID := "",
    name := "" }

/-- A conversation exercising all three translator cases. -/
def wMsgs : List Message :=
  [wAssistantMsg, wFunctionMsg, wUserMsg]

/-- Pool state at process start: both pools empty. -/
def c8Initial : PoolState :=
  { smallPool := [], largePool := [], nextId := 0 }

/-- C1: a chat request whose model equals the mocked identifier is forwarded
with the upstream model set to the runtime configuration's current model —
never the client-supplied id — and a request with any other model is
answered with HTTP 400 and is never forwarded upstream. -/
theorem C1_model_gate (cfg : Config) (req : ChatRequest) :
    (req.model = cursorMockedModel →
      ∃ r, rewriteRequest cfg req = RewriteOutcome.forward r ∧
        r.model = cfg.model) ∧
    (req.model ≠ cursorMockedModel →
      rewriteRequest cfg req =
        RewriteOutcome.clientError 400
          ("Model " ++ req.model ++ " not supported. Use " ++
            cursorMockedModel ++ " instead.")) := by
  constructor
  · intro h
    unfold rewriteRequest
    rw [if_pos h]
    exact ⟨_, rfl, rfl⟩
  · intro h
    simp [rewriteRequest, h]

/-- C1 witness: under the default configuration, a concrete "gpt-4o" request
is forwarded with the configured model and a concrete "o1-preview" request
is rejected with the exact 400 message. -/
theorem C1_model_gate_witness :
    (∃ r, rewriteRequest cfgDefault baseRequest = RewriteOutcome.forward r ∧
      r.model = cfgDefault.model) ∧
    rewriteRequest cfgDefault { baseRequest with model := "o1-preview" } =
      RewriteOutcome.clientError 400
        "Model o1-preview not supported. Use gpt-4o instead." := by
  constructor
  · exact (C1_model_gate cfgDefault baseRequest).1 rfl
  · have h :=
      (C1_model_gate cfgDefault { baseRequest with model := "o1-preview" }).2
        (by decide)
    rw [h]
    decide

/-- C2 (code bug): a choice whose message holds a tool call with an empty
function name and one named tool call is rewritten to a client message whose
tool-call function names are ["", "get_weather", "get_weather"] — the
empty-name call is retained and the named one duplicated, instead of the
claimed removal of the empty-name call with all others retained once. -/
theorem C2_empty_toolcall_kept :
    regularToolCallNames (handleRegularResponse c2Upstream) =
      [["", "get_weather", "get_weather"]] := by
  decide

/-- C5 (code bug): the http.Server serves every request through proxyHandler,
so a GET request to /health takes the 404 "Not found" branch — the
health-check closure registered on the default mux never runs and no
upstream probe is made. -/
theorem C5_health_unreachable :
    serverRoute "GET" "/health" = Route.notFound := by
  decide

/-- C6 counterexample: the upstream request built by handleGetModelsRequest
carries no Authorization header, refuting the claim that every
upstream-bound request carries bearer authorization from the configured
key. -/
theorem C6_models_request_lacks_auth :
    lookupHeader modelsProxyHeaders "Authorization" = none := by
  decide

/-- C6 (amended): the chat-completion forward carries bearer authorization
from the configuration key, JSON content-type, an accept of application/json
overridden to text/event-stream when streaming, and the fixed user-agent and
attribution headers; the health probe carries bearer authorization, JSON
content-type and the attribution headers but neither accept nor user-agent;
the /v1/models listing proxy sends only a JSON content-type header and no
authorization. -/
theorem C6_upstream_headers (cfg : Config) (stream : Bool) :
    lookupHeader (chatForwardHeaders cfg stream) "Authorization" =
      some ("Bearer " ++ cfg.apiKey) ∧
    lookupHeader (chatForwardHeaders cfg stream) "Content-Type" =
      some "application/json" ∧
    lookupHeader (chatForwardHeaders cfg stream) "Accept" =
      some (if stream then "text/event-stream" else "application/json") ∧
    lookupHeader (chatForwardHeaders cfg stream) "User-Agent" =
      some "cursor-proxy/1.0" ∧
    lookupHeader (chatForwardHeaders cfg stream) "HTTP-Referer" =
      some "https://github.com/pezzos/cursor-proxy" ∧
    lookupHeader (chatForwardHeaders cfg stream) "X-Title" =
      some "Cursor Proxy" ∧
    lookupHeader (chatForwardHeaders cfg stream) "OpenAI-Organization" =
      some "cursor-proxy" ∧
    lookupHeader (healthProbeHeaders cfg) "Authorization" =
      some ("Bearer " ++ cfg.apiKey) ∧
    lookupHeader (healthProbeHeaders cfg) "Content-Type" =
      some "application/json" ∧
    lookupHeader (healthProbeHeaders cfg) "Accept" = none ∧
    lookupHeader (healthProbeHeaders cfg) "User-Agent" = none ∧
    lookupHeader modelsProxyHeaders "Content-Type" =
      some "application/json" ∧
    lookupHeader modelsProxyHeaders "Authorization" = none :=
  ⟨rfl, rfl, rfl, rfl, rfl, rfl, rfl, rfl, rfl, rfl, rfl, rfl, rfl⟩

/-- C7: relaying an upstream body of three non-blank lines separated by
blank lines writes exactly the three lines verbatim, each immediately
followed by a flush, forwards no blank line, and emits no heartbeat while
less than 15 seconds of wall-clock time have elapsed. -/
theorem C7_streaming_relay (l1 l2 l3 b1 b2 : String)
    (h1 : isBlankLine l1 = false) (h2 : isBlankLine l2 = false)
    (h3 : isBlankLine l3 = false)
    (hb1 : isBlankLine b1 = true) (hb2 : isBlankLine b2 = true) :
    relayLines [l1, b1, l2, b2, l3] =
      [StreamAction.writeLine l1, StreamAction.flush,
       StreamAction.writeLine l2, StreamAction.flush,
       StreamAction.writeLine l3, StreamAction.flush] ∧
    (∀ e : ℕ, e < 15 → heartbeatCount e = 0) := by
  constructor
  · simp [relayLines, h1, h2, h3, hb1, hb2]
  · intro e he
    exact Nat.div_eq_of_lt he

/-- C7 witness: a concrete three-line event stream with interleaved blank
lines, under 15 seconds of elapsed time. -/
theorem C7_streaming_relay_witness :
    relayLines
        ["data: alpha\n", "\n", "data: beta\n", "\n", "data: gamma\n"] =
      [StreamAction.writeLine "data: alpha\n", StreamAction.flush,
       StreamAction.writeLine "data: beta\n", StreamAction.flush,
       StreamAction.writeLine "data: gamma\n", StreamAction.flush] ∧
    heartbeatCount 14 = 0 := by
  have h :=
    C7_streaming_relay "data: alpha\n" "data: beta\n" "data: gamma\n"
      "\n" "\n" (by decide) (by decide) (by decide) (by decide) (by decide)
  exact ⟨h.1, h.2 14 (by decide)⟩

/-- C8 (code bug): readResponse on a fresh pool state returns a byte slice
whose backing buffer is already back in the small pool when the call
returns, and the very next getBuffer hands that same buffer out again with
its contents reset — so the caller's slice aliases a buffer that has been
returned to the pool, violating the never-read-after-return invariant. -/
theorem C8_returned_slice_aliases_pool :
    (readResponse 5 [104, 101, 108, 108, 111] c8Initial).1.1 ∈
      ((readResponse 5 [104, 101, 108, 108, 111] c8Initial).2.smallPool.map
        PoolBuffer.bufId) ∧
    (getBuffer 5
        (readResponse 5 [104, 101, 108, 108, 111] c8Initial).2).1.bufId =
      (readResponse 5 [104, 101, 108, 108, 111] c8Initial).1.1 ∧
    (getBuffer 5
        (readResponse 5 [104, 101, 108, 108, 111] c8Initial).2).1.data =
      [] := by
  decide

/-- C3: the numeric parameter policy is keyed by prefix of the resolved
configuration model: under a "mistralai/" model a present temperature is
stored clamped to a ceiling of 1.0 and max_tokens is never serialized; under
a "google/" model a present temperature is clamped the same way and a
present max_tokens is copied; under any other model both are copied
unclamped. -/
theorem C3_param_policy (cfg : Config) (req : ChatRequest)
    (r : OpenRouterRequest)
    (hr : rewriteRequest cfg req = RewriteOutcome.forward r) :
    (startsWithStr cfg.model "mistralai/" = true →
      (∀ t, req.temperature = some t →
        (t ≤ 1 → r.temperature = t) ∧ (1 < t → r.temperature = 1)) ∧
      serializedMaxTokens r = none) ∧
    (startsWithStr cfg.model "mistralai/" = false →
     startsWithStr cfg.model "google/" = true →
      (∀ t, req.temperature = some t →
        (t ≤ 1 → r.temperature = t) ∧ (1 < t → r.temperature = 1)) ∧
      (∀ m, req.maxTokens = some m → r.maxTokens = m)) ∧
    (startsWithStr cfg.model "mistralai/" = false →
     startsWithStr cfg.model "google/" = false →
      (∀ t, req.temperature = some t → r.temperature = t) ∧
      (∀ m, req.maxTokens = some m → r.maxTokens = m)) := by
  by_cases hm : req.model = cursorMockedModel
  · unfold rewriteRequest at hr
    rw [if_pos hm] at hr
    have hreq :
        r = { model := cfg.model
              messages := convertMessages req.messages
              stream := req.stream
              temperature :=
                (applyParamPolicy cfg.model req.temperature req.maxTokens).1
              maxTokens :=
                (applyParamPolicy cfg.model req.temperature req.maxTokens).2
              tools := (applyTools req.tools req.functions req.toolChoice).1
              toolChoice :=
                (applyTools req.tools req.functions req.toolChoice).2 } := by
      cases hr
      rfl
    subst hreq
    refine ⟨?_, ?_, ?_⟩
    · intro hpre
      constructor
      · intro t ht
        simp only [applyParamPolicy, hpre, if_true, ht, clampTemp]
        constructor
        · intro hle
          rw [if_neg (not_lt.mpr hle)]
        · intro hgt
          rw [if_pos hgt]
      · simp [serializedMaxTokens, applyParamPolicy, hpre]
    · intro hpre1 hpre2
      constructor
      · intro t ht
        simp only [applyParamPolicy, hpre1, hpre2, ht, clampTemp,
          Bool.false_eq_true, if_false, if_true]
        constructor
        · intro hle
          rw [if_neg (not_lt.mpr hle)]
        · intro hgt
          rw [if_pos hgt]
      · intro m hmt
        simp [applyParamPolicy, hpre1, hpre2, hmt]
    · intro hpre1 hpre2
      constructor
      · intro t ht
        simp [applyParamPolicy, hpre1, hpre2, ht]
      · intro m hmt
        simp [applyParamPolicy, hpre1, hpre2, hmt]
  · unfold rewriteRequest at hr
    rw [if_neg hm] at hr
    exact absurd hr (by simp)

/-- C3 witness: the spec's own example — temperature 1.7 under the
google-family model "google/gemini-pro" rewrites to upstream temperature
exactly 1 with max_tokens 2048 forwarded. -/
theorem C3_param_policy_witness :
    rewriteRequest cfgGoogle reqSpicy = RewriteOutcome.forward rSpicy ∧
    rSpicy.temperature = 1 ∧ rSpicy.maxTokens = 2048 := by
  have hp1 : startsWithStr cfgGoogle.model "mistralai/" = false := by decide
  have hp2 : startsWithStr cfgGoogle.model "google/" = true := by decide
  have hr : rewriteRequest cfgGoogle reqSpicy = RewriteOutcome.forward rSpicy := by
    unfold rewriteRequest
    rw [if_pos (show reqSpicy.model = cursorMockedModel from rfl)]
    norm_num [applyParamPolicy, applyTools, hp1, hp2,
      show startsWithStr "google/gemini-pro" "mistralai/" = false by decide,
      show startsWithStr "google/gemini-pro" "google/" = true by decide,
      clampTemp, rSpicy, reqSpicy, baseRequest, cfgGoogle, cfgDefault,
      convertMessages, convertToolChoice]
  have h :=
    (C3_param_policy cfgGoogle reqSpicy rSpicy hr).2.1 hp1 hp2
  exact ⟨hr, (h.1 (17 / 10) rfl).2 (by norm_num), h.2 2048 rfl⟩

/-- C4: the message translator returns a list of the same length in the same
order; every message keeps its content, name and tool_call_id verbatim; the
legacy "function" role is rewritten to "tool" while all other roles are
kept; in an assistant message every tool call is re-tagged with type
"function" with its id and function (name and argument string) preserved at
the same position; and a message that is neither an assistant message
carrying tool calls nor a "function"-role message is passed through
entirely unchanged. -/
theorem C4_message_translator (msgs : List Message) :
    (convertMessages msgs).length = msgs.length ∧
    ∀ i (h : i < msgs.length), ∀ m2,
      (convertMessages msgs)[i]? = some m2 →
      (m2.content = (msgs.get ⟨i, h⟩).content ∧
       m2.name = (msgs.get ⟨i, h⟩).name ∧
       m2.toolCallID = (msgs.get ⟨i, h⟩).toolCallID) ∧
      m2.role = (if (msgs.get ⟨i, h⟩).role = "function" then "tool"
                 else (msgs.get ⟨i, h⟩).role) ∧
      ((msgs.get ⟨i, h⟩).role = "assistant" →
        m2.toolCalls.length = (msgs.get ⟨i, h⟩).toolCalls.length ∧
        ∀ j (hj : j < (msgs.get ⟨i, h⟩).toolCalls.length), ∀ tc2,
          m2.toolCalls[j]? = some tc2 →
          tc2.type = "function" ∧
          tc2.id = ((msgs.get ⟨i, h⟩).toolCalls.get ⟨j, hj⟩).id ∧
          tc2.function =
            ((msgs.get ⟨i, h⟩).toolCalls.get ⟨j, hj⟩).function) ∧
      (¬((msgs.get ⟨i, h⟩).role = "assistant" ∧
          (msgs.get ⟨i, h⟩).toolCalls ≠ []) →
        (msgs.get ⟨i, h⟩).role ≠ "function" → m2 = msgs.get ⟨i, h⟩) := by
  constructor
  · simp [convertMessages]
  · intro i h m2 hm2
    have hsome : (convertMessages msgs)[i]? =
        some (convertMessage (msgs.get ⟨i, h⟩)) := by
      simp [convertMessages, List.getElem?_map, List.getElem?_eq_getElem h]
    rw [hsome] at hm2
    injection hm2 with hm2
    subst hm2
    set m := msgs.get ⟨i, h⟩ with hm
    clear hsome hm
    by_cases ha : m.role = "assistant" ∧ m.toolCalls ≠ []
    · have hnf : ¬ m.role = "function" := by
        rw [ha.1]
        decide
      refine ⟨⟨?_, ?_, ?_⟩, ?_, ?_, ?_⟩
      · simp [convertMessage, ha, hnf]
      · simp [convertMessage, ha, hnf]
      · simp [convertMessage, ha, hnf]
      · simp [convertMessage, ha, hnf]
      · intro _
        constructor
        · simp [convertMessage, ha, hnf]
        · intro j hj tc2 htc2
          have : (convertMessage m).toolCalls =
              m.toolCalls.map (fun tc => { tc with type := "function" }) := by
            simp [convertMessage, ha, hnf]
          rw [this, List.getElem?_map, List.getElem?_eq_getElem hj] at htc2
          injection htc2 with htc2
          subst htc2
          exact ⟨rfl, rfl, rfl⟩
      · intro hna
        exact absurd ha hna
    · by_cases hf : m.role = "function"
      · have hna : ¬ (m.role = "assistant" ∧ m.toolCalls ≠ []) := ha
        refine ⟨⟨?_, ?_, ?_⟩, ?_, ?_, ?_⟩
        · simp [convertMessage, hna, hf]
        · simp [convertMessage, hna, hf]
        · simp [convertMessage, hna, hf]
        · simp [convertMessage, hna, hf]
        · intro hrole
          exact absurd hf (by rw [hrole]; decide)
        · intro _ hnf
          exact absurd hf hnf
      · have heq : convertMessage m = m := by
          simp [convertMessage, ha, hf]
        refine ⟨⟨?_, ?_, ?_⟩, ?_, ?_, ?_⟩
        · rw [heq]
        · rw [heq]
        · rw [heq]
        · rw [heq, if_neg hf]
        · intro hrole
          rw [heq]
          refine ⟨rfl, ?_⟩
          intro j hj tc2 htc2
          have hne : m.toolCalls ≠ [] := by
            intro hnil
            rw [hnil] at hj
            exact absurd hj (by simp)
          exact absurd ⟨hrole, hne⟩ ha
        · intro _ _
          rw [heq]

/-- C4 witness: on a concrete three-message conversation the translated list
keeps its length and the legacy function-role message at index 1 comes out
with role "tool". -/
theorem C4_message_translator_witness :
    (convertMessages wMsgs).length = wMsgs.length ∧
    (convertMessages wMsgs)[1]?.map Message.role = some "tool" := by
  have h := C4_message_translator wMsgs
  refine ⟨h.1, ?_⟩
  have e : (convertMessages wMsgs)[1]? = some (convertMessage wFunctionMsg) :=
    rfl
  have h2 := (h.2 1 (by decide) (convertMessage wFunctionMsg) e).2.1
  rw [e]
  show some (convertMessage wFunctionMsg).role = some "tool"
  rw [show (wMsgs.get ⟨1, by decide⟩) = wFunctionMsg from rfl] at h2
  rw [h2]
  decide

/-- The parameter policy cannot tell an explicit zero temperature from an
absent one: both leave the zero value in the upstream struct. -/
theorem applyParamPolicy_temp_zero (model : String) (mt : Option Int) :
    applyParamPolicy model (some 0) mt = applyParamPolicy model none mt := by
  unfold applyParamPolicy
  split
  · norm_num [clampTemp]
  · split
    · norm_num [clampTemp]
    · rfl

/-- The parameter policy cannot tell an explicit zero max_tokens from an
absent one. -/
theorem applyParamPolicy_maxTokens_zero (model : String) (t : Option ℚ) :
    applyParamPolicy model t (some 0) = applyParamPolicy model t none := by
  unfold applyParamPolicy
  split
  · rfl
  · split
    · rfl
    · rfl

/-- A zero inbound temperature always leaves the zero struct value. -/
theorem applyParamPolicy_temp_zero_fst (model : String) (mt : Option Int) :
    (applyParamPolicy model (some 0) mt).1 = 0 := by
  unfold applyParamPolicy
  split
  · norm_num [clampTemp]
  · split
    · norm_num [clampTemp]
    · rfl

/-- A zero inbound max_tokens always leaves the zero struct value. -/
theorem applyParamPolicy_maxTokens_zero_snd (model : String) (t : Option ℚ) :
    (applyParamPolicy model t (some 0)).2 = 0 := by
  unfold applyParamPolicy
  split
  · rfl
  · split
    · rfl
    · rfl

/-- C10: a chat request carrying an explicitly present zero temperature or
zero max_tokens rewrites to exactly the same upstream request as the same
request with the field absent, and the zero-valued field is omitted from the
serialized upstream body — a client cannot send a zero value for either
field through the proxy. -/
theorem C10_zero_numeric_fields (cfg : Config) (req : ChatRequest) :
    (req.temperature = some 0 →
      rewriteRequest cfg req =
        rewriteRequest cfg { req with temperature := none } ∧
      (∀ r, rewriteRequest cfg req = RewriteOutcome.forward r →
        serializedTemperature r = none)) ∧
    (req.maxTokens = some 0 →
      rewriteRequest cfg req =
        rewriteRequest cfg { req with maxTokens := none } ∧
      (∀ r, rewriteRequest cfg req = RewriteOutcome.forward r →
        serializedMaxTokens r = none)) := by
  constructor
  · intro ht
    constructor
    · by_cases hm : req.model = cursorMockedModel
      · simp [rewriteRequest, hm, ht, applyParamPolicy_temp_zero]
      · simp [rewriteRequest, hm, ht]
    · intro r hr
      by_cases hm : req.model = cursorMockedModel
      · unfold rewriteRequest at hr
        rw [if_pos hm] at hr
        have hrt : r.temperature =
            (applyParamPolicy cfg.model req.temperature req.maxTokens).1 := by
          cases hr
          rfl
        rw [ht] at hrt
        rw [serializedTemperature, hrt, applyParamPolicy_temp_zero_fst,
          if_pos rfl]
      · unfold rewriteRequest at hr
        rw [if_neg hm] at hr
        exact absurd hr (by simp)
  · intro hmt
    constructor
    · by_cases hm : req.model = cursorMockedModel
      · simp [rewriteRequest, hm, hmt, applyParamPolicy_maxTokens_zero]
      · simp [rewriteRequest, hm, hmt]
    · intro r hr
      by_cases hm : req.model = cursorMockedModel
      · unfold rewriteRequest at hr
        rw [if_pos hm] at hr
        have hrt : r.maxTokens =
            (applyParamPolicy cfg.model req.temperature req.maxTokens).2 := by
          cases hr
          rfl
        rw [hmt] at hrt
        rw [serializedMaxTokens, hrt, applyParamPolicy_maxTokens_zero_snd,
          if_pos rfl]
      · unfold rewriteRequest at hr
        rw [if_neg hm] at hr
        exact absurd hr (by simp)

/-- C10 witness: a concrete request with temperature 0 and max_tokens 0
rewrites identically to the same request with either field absent. -/
theorem C10_zero_numeric_fields_witness :
    rewriteRequest cfgDefault reqZero =
      rewriteRequest cfgDefault { reqZero with temperature := none } ∧
    rewriteRequest cfgDefault reqZero =
      rewriteRequest cfgDefault { reqZero with maxTokens := none } := by
  have h1 := (C10_zero_numeric_fields cfgDefault reqZero).1 rfl
  have h2 := (C10_zero_numeric_fields cfgDefault reqZero).2 rfl
  exact ⟨h1.1, h2.1⟩

end CursorProxy
